import Mathlib

/-!
Verification of the skelenode-dispatcher source (src/index.js) against its
natural-language specification.

The JavaScript module keeps, per attached context, an object
`context.dispatcher = { _callbacks, _client, _context, subscribe, unsubscribe }`
where `_callbacks` maps an event-name string to an ordered array of callback
functions, and `_client` is the dedicated Redis subscriber connection.  The
client object carries a back-pointer `client.dispatcher = { _callbacks, _context }`
sharing the same `_callbacks` object, so `handleMessage` (whose `this` is the
client) reads the same registry that `subscribe`/`unsubscribe` (whose `this` is
`context.dispatcher`) mutate.  We therefore model a single callback map shared
by both sides.

Modelling conventions:
- Events are strings; the only falsy string is `""`, so the JavaScript guard
  `if (!event)` becomes `if event = ""`.
- Callbacks are identified by natural numbers (JavaScript compares them with
  reference identity `===`; Nat equality models that).  A JavaScript function
  value is always truthy, so a falsy `callback` argument means the argument is
  absent; we model the argument as `Option Cb`, with `none` for the missing /
  nullish case checked by `if (!callback)`.
- The callback registry `_callbacks` is an association list, mirroring a
  JavaScript object: property lookup returns the first (unique) matching key or
  `undefined` (`none`); a fresh key is appended at the end.  An empty array
  stored under a key is truthy in JavaScript and distinct from an absent key,
  which `Option (List Cb)` captures exactly (`some []` vs `none`).
- Broker interaction (`client.subscribe`, `client.unsubscribe`,
  `redisPublisher.publish`) is modelled by returning the list of requests the
  call issues, in order.
- A thrown JavaScript exception is modelled with `Except String`.
-/

namespace SkelenodeDispatcher

/-- Callback identity (JavaScript functions compared by reference). -/
abbrev Cb := Nat

/-- The `_callbacks` object: event name to ordered array of callbacks. -/
abbrev CbMap := List (String × List Cb)

/-- A request sent to the Redis broker by the dispatcher code. -/
inductive Request where
  | subscribeR (event : String)
  | unsubscribeR (event : String)
  | publishR (channel : String) (payload : String)
deriving DecidableEq, Repr

/-- JavaScript object property lookup `this._callbacks[event]`:
the value under the key, or `undefined` (`none`) when absent. -/
def lookupCbs : CbMap → String → Option (List Cb)
  | [], _ => none
  | (e', l) :: rest, e => if e' = e then some l else lookupCbs rest e

/-- In-place replacement of the array stored under an existing key
(models mutating the array object found by `this._callbacks[event]`).
Leaves the map unchanged when the key is absent. -/
def setCbs : CbMap → String → List Cb → CbMap
  | [], _, _ => []
  | (e', l) :: rest, e, l' =>
    if e' = e then (e', l') :: rest else (e', l) :: setCbs rest e l'

/-- The backward splice loop of `unsubscribe` (src/index.js lines 178-182):
iterating from the end and splicing every element `=== callback` removes all
occurrences while keeping the remaining elements in order. -/
def removeAllCb : List Cb → Cb → List Cb
  | [], _ => []
  | x :: xs, cb => if x = cb then removeAllCb xs cb else x :: removeAllCb xs cb

/-- `subscribe(event, callback)` from src/index.js lines 109-125, acting on the
context registry `this._callbacks`.  Returns the updated map and the broker
requests issued.  Guard: `if (!event || !callback) return this;`.  Then either
pushes onto the existing array or creates `[callback]` under a fresh key, and
always issues `this._client.subscribe(event)`. -/
def subscribe (cbs : CbMap) (event : String) (callback : Option Cb) :
    CbMap × List Request :=
  if event = "" then (cbs, [])
  else
    match callback with
    | none => (cbs, [])
    | some cb =>
      match lookupCbs cbs event with
      | some l => (setCbs cbs event (l ++ [cb]), [Request.subscribeR event])
      | none => (cbs ++ [(event, [cb])], [Request.subscribeR event])

/-- `unsubscribe(event, callback)` from src/index.js lines 170-190.  Guard:
`if (!event || !callback) return;`.  If an array exists under the event it
splices out every element equal to the callback; afterwards, if the array is
absent or (now) empty, it issues `this._client.unsubscribe(event)`. -/
def unsubscribe (cbs : CbMap) (event : String) (callback : Option Cb) :
    CbMap × List Request :=
  if event = "" then (cbs, [])
  else
    match callback with
    | none => (cbs, [])
    | some cb =>
      match lookupCbs cbs event with
      | some l =>
        let l' := removeAllCb l cb
        if l' = [] then (setCbs cbs event l', [Request.unsubscribeR event])
        else (setCbs cbs event l', [])
      | none => (cbs, [Request.unsubscribeR event])

/-- `publish(event)` from src/index.js lines 132-140 (the shared publisher
connection is assumed established by `start`): no-op for a falsy event,
otherwise `redisPublisher.publish(event, '')`. -/
def publish (event : String) : List Request :=
  if event = "" then [] else [Request.publishR event ""]

/-- One callback invocation performed by `handleMessage`:
`callbacks[i].call(this.dispatcher._context, event)`. -/
structure Invocation where
  cb : Cb
  receiver : Nat
  arg : String
deriving DecidableEq, Repr

/-- The string thrown by `handleMessage` on a non-empty payload
(src/index.js line 154). -/
def payloadErr : String :=
  "A message payload was sent across Redis. We intentionally do not support this to avoid security issues."

/-- `handleMessage(event, message)` from src/index.js lines 147-162, with
`this` the subscriber client; `ctxId` identifies `this.dispatcher._context`.
Order of checks as in the source: `if (!event) return;` first, then the
payload check `if (message && message !== '') throw ...` (for a string
payload, truthy means non-empty), then the loop over
`this.dispatcher._callbacks[event]` (an absent array gives a falsy loop bound,
hence zero iterations). -/
def handleMessage (cbs : CbMap) (ctxId : Nat) (event message : String) :
    Except String (List Invocation) :=
  if event = "" then Except.ok []
  else if message ≠ "" then Except.error payloadErr
  else
    Except.ok (((lookupCbs cbs event).getD []).map fun c =>
      { cb := c, receiver := ctxId, arg := event })

/-- State of a subscriber connection object, as far as the attach/detach
lifecycle observes it: whether `client.quit()` was called, and whether the
back-pointer `client.dispatcher` is set (cross-reference to the context). -/
structure ClientState where
  quitCalled : Bool
  backRef : Bool
deriving DecidableEq, Repr

/-- The `context.dispatcher` object installed by `attach` (its `subscribe` /
`unsubscribe` methods are the module functions above; `_context` is the
enclosing context itself). -/
structure Registry where
  callbacks : CbMap
  client : ClientState
deriving DecidableEq, Repr

/-- A context: any object with a (possibly null) `dispatcher` property.
`none` in `World.context` below models passing a nullish context instead. -/
structure Context where
  dispatcher : Option Registry
deriving DecidableEq, Repr

/-- The state surrounding one `attach`/`detach` call: how many subscriber
connections `redis.createClient` has created so far, and the context argument
(`none` = nullish). -/
structure World where
  connections : Nat
  context : Option Context
deriving DecidableEq, Repr

/-- The value returned by `attach` (src/index.js lines 62-87): `false` for a
nullish context, a bare `return;` (undefined) for an already-attached context,
and `this` (the dispatcher) after a fresh attachment. -/
inductive AttachResult where
  | retFalse
  | retUndefined
  | retDispatcher
deriving DecidableEq, Repr

/-- `attached(context)` from src/index.js lines 94-100.  The debug log on
line 95 evaluates `context.dispatcher` BEFORE the `if (!context)` guard on
line 96; with `DEBUG_DISPATCHER` truthy (the module default) and a nullish
context this property access throws a TypeError.  With debug off, the guard
returns `false`; otherwise the result is `!!context.dispatcher`. -/
def attached (debug : Bool) (context : Option Context) : Except String Bool :=
  match context, debug with
  | none, true => Except.error "TypeError: Cannot read property dispatcher of null"
  | none, false => Except.ok false
  | some c, _ => Except.ok c.dispatcher.isSome

/-- `attach(context)` from src/index.js lines 62-87.  `if (!context) return
false;`; then `if (attached(context)) return;` (the context is non-null here,
so the call inside cannot throw regardless of the debug flag, and it reads
`context.dispatcher`); otherwise a new subscriber connection is created
(`redis.createClient`), `context.dispatcher` is installed with an empty
`_callbacks`, the back-pointer `client.dispatcher` is set, the message handler
is wired, and `this` is returned. -/
def attach (w : World) : World × AttachResult :=
  match w.context with
  | none => (w, AttachResult.retFalse)
  | some c =>
    match c.dispatcher with
    | some _ => (w, AttachResult.retUndefined)
    | none =>
      let client : ClientState := { quitCalled := false, backRef := true }
      let reg : Registry := { callbacks := [], client := client }
      ({ connections := w.connections + 1,
         context := some { dispatcher := some reg } },
       AttachResult.retDispatcher)

/-- `detach(context)` from src/index.js lines 197-212.  `if (!context)
return;`; `if (!attached(context)) return;` (context non-null, so no throw);
otherwise `context.dispatcher._client.quit()`, then
`context.dispatcher._client.dispatcher = null`, then
`context.dispatcher = null`.  The second component returns the final state of
the (now unreferenced) client object so the theorems can observe that the
connection was terminated and its back-pointer cleared. -/
def detach (w : World) : World × Option ClientState :=
  match w.context with
  | none => (w, none)
  | some c =>
    match c.dispatcher with
    | none => (w, none)
    | some reg =>
      ({ w with context := some { dispatcher := none } },
       some { reg.client with quitCalled := true, backRef := false })

/-- Folding a list of `subscribe` calls (event, callback pairs) over a
registry, used to state dispatch order relative to subscription order. -/
def runSubscribes (ops : List (String × Cb)) (cbs : CbMap) : CbMap :=
  ops.foldl (fun m p => (subscribe m p.1 (some p.2)).1) cbs

/-- Unfolding one step of `runSubscribes`. -/
theorem runSubscribes_cons (p : String × Cb) (ops : List (String × Cb)) (cbs : CbMap) :
    runSubscribes (p :: ops) cbs = runSubscribes ops (subscribe cbs p.1 (some p.2)).1 := rfl

/-- Replacing the array under a key that is present: lookup now yields the new
array. -/
theorem lookupCbs_setCbs_self (cbs : CbMap) (e : String) (l l' : List Cb)
    (h : lookupCbs cbs e = some l) : lookupCbs (setCbs cbs e l') e = some l' := by
  induction cbs with
  | nil => simp [lookupCbs] at h
  | cons p rest ih =>
    obtain ⟨e0, l0⟩ := p
    by_cases h0 : e0 = e
    · simp [lookupCbs, setCbs, h0]
    · simp [lookupCbs, setCbs, h0] at h ⊢
      exact ih h

/-- Replacing the array under one key leaves every other key unchanged. -/
theorem lookupCbs_setCbs_other (cbs : CbMap) (event e : String) (l' : List Cb)
    (h : e ≠ event) : lookupCbs (setCbs cbs event l') e = lookupCbs cbs e := by
  induction cbs with
  | nil => simp [setCbs]
  | cons p rest ih =>
    obtain ⟨e0, l0⟩ := p
    by_cases h0 : e0 = event
    · subst h0
      simp [lookupCbs, setCbs, Ne.symm h]
    · by_cases h1 : e0 = e <;> simp [lookupCbs, setCbs, h0, h1, h, ih]

/-- Appending a fresh key at the end: lookup of that key now finds it
(provided it was absent, as JavaScript object keys are unique). -/
theorem lookupCbs_append_self (cbs : CbMap) (event : String) (l : List Cb)
    (h : lookupCbs cbs event = none) :
    lookupCbs (cbs ++ [(event, l)]) event = some l := by
  induction cbs with
  | nil => simp [lookupCbs]
  | cons p rest ih =>
    obtain ⟨e0, l0⟩ := p
    by_cases h0 : e0 = event
    · simp [lookupCbs, h0] at h
    · simp [lookupCbs, h0] at h ⊢
      exact ih h

/-- Appending a fresh key at the end leaves every other key unchanged. -/
theorem lookupCbs_append_other (cbs : CbMap) (event : String) (l : List Cb)
    (e : String) (h : e ≠ event) :
    lookupCbs (cbs ++ [(event, l)]) e = lookupCbs cbs e := by
  induction cbs with
  | nil => simp [lookupCbs, Ne.symm h]
  | cons p rest ih =>
    obtain ⟨e0, l0⟩ := p
    by_cases h0 : e0 = e <;> simp [lookupCbs, h0, ih]

/-- The backward splice loop behaves as a filter: it removes every occurrence
of the callback and keeps the others in order. -/
theorem removeAllCb_eq_filter (l : List Cb) (cb : Cb) :
    removeAllCb l cb = l.filter (fun x => x != cb) := by
  induction l with
  | nil => rfl
  | cons x xs ih =>
    by_cases h : x = cb <;> simp [removeAllCb, List.filter_cons, h, ih]

/-- `subscribe` with a truthy event and present callback appends the callback
at the end of the event's array (creating `[callback]` when absent). -/
theorem subscribe_lookup_self (cbs : CbMap) (event : String) (cb : Cb)
    (he : event ≠ "") :
    lookupCbs (subscribe cbs event (some cb)).1 event =
      some ((lookupCbs cbs event).getD [] ++ [cb]) := by
  unfold subscribe
  simp only [he, if_false, ite_false]
  cases hl : lookupCbs cbs event with
  | some l => simpa [hl] using lookupCbs_setCbs_self cbs event l (l ++ [cb]) hl
  | none => simpa [hl] using lookupCbs_append_self cbs event [cb] hl

/-- `subscribe` never touches the array of a different event. -/
theorem subscribe_lookup_other (cbs : CbMap) (event : String) (cb : Cb)
    (e : String) (he : event ≠ "") (hne : e ≠ event) :
    lookupCbs (subscribe cbs event (some cb)).1 e = lookupCbs cbs e := by
  unfold subscribe
  simp only [he, if_false, ite_false]
  cases hl : lookupCbs cbs event with
  | some l => simpa using lookupCbs_setCbs_other cbs event e (l ++ [cb]) hne
  | none => simpa using lookupCbs_append_other cbs event [cb] e hne

/-- `subscribe` with a truthy event and present callback always issues exactly
one broker subscribe request, already-subscribed or not. -/
theorem subscribe_requests (cbs : CbMap) (event : String) (cb : Cb)
    (he : event ≠ "") :
    (subscribe cbs event (some cb)).2 = [Request.subscribeR event] := by
  unfold subscribe
  simp only [he, if_false, ite_false]
  cases hl : lookupCbs cbs event <;> simp

/-- Folding subscribe calls: the array under an event collects exactly the
callbacks subscribed to that event, in call order, appended after whatever was
there before. -/
theorem runSubscribes_lookup (ops : List (String × Cb)) (cbs : CbMap)
    (event : String) (hops : ∀ p ∈ ops, p.1 ≠ "") :
    (lookupCbs (runSubscribes ops cbs) event).getD [] =
      (lookupCbs cbs event).getD [] ++
        (ops.filter (fun p => p.1 == event)).map Prod.snd := by
  induction ops generalizing cbs with
  | nil => simp [runSubscribes]
  | cons p ops ih =>
    obtain ⟨e0, c0⟩ := p
    have he0 : e0 ≠ "" := hops _ (List.mem_cons_self _ _)
    have hops' : ∀ q ∈ ops, q.1 ≠ "" := fun q hq => hops q (List.mem_cons_of_mem _ hq)
    rw [runSubscribes_cons, ih _ hops']
    by_cases h : e0 = event
    · subst h
      simp [subscribe_lookup_self cbs e0 c0 he0, List.filter_cons]
    · simp [subscribe_lookup_other cbs e0 c0 event he0 (Ne.symm h), List.filter_cons, h]

/-- A sample registry with one subscription, for concrete instantiations. -/
def sampleReg : Registry :=
  { callbacks := [("a", [1])], client := { quitCalled := false, backRef := true } }

/-- A sample world whose context is already attached. -/
def sampleAttachedW : World :=
  { connections := 1, context := some { dispatcher := some sampleReg } }

/-- C1: the claim says `attached(context)` returns `false` and raises no error
for every nullish context.  The code violates this: the debug log on line 95
reads `context.dispatcher` before the `if (!context)` guard on line 96, so
with `DEBUG_DISPATCHER` truthy (the module default, line 22) a nullish context
makes `attached` throw a TypeError; only with debug disabled does it return
`false`.  This theorem evaluates the model at the failing input and at the
debug-off input. -/
theorem C1_attached_nullish_throws_under_default_debug :
    attached true none =
      Except.error "TypeError: Cannot read property dispatcher of null" ∧
    attached false none = Except.ok false :=
  ⟨rfl, rfl⟩

/-- C2 counterexample: a delivery whose event name is falsy (`""`) and whose
payload is the non-empty string `"boom"` is handled without raising any error
(and with no callback invoked), because `handleMessage` checks `if (!event)
return;` before the payload check.  This refutes the claim that EVERY delivery
with a non-empty string payload raises synchronously. -/
theorem C2_counterexample_falsy_event_nonempty_payload :
    handleMessage [("x", [1])] 0 "" "boom" = Except.ok [] := rfl

/-- C2 (amended): for every inbound delivery with a truthy event name whose
payload is a non-empty string, message handling raises synchronously (the
fixed protocol-violation error string) and no callback is invoked for that
delivery. -/
theorem C2_amended_nonempty_payload_raises (cbs : CbMap) (ctxId : Nat)
    (event message : String) (he : event ≠ "") (hm : message ≠ "") :
    handleMessage cbs ctxId event message = Except.error payloadErr := by
  simp [handleMessage, he, hm]

/-- C2 witness: concrete delivery on event `"x"` with payload `"boom"`. -/
theorem C2_amended_witness :
    handleMessage [("x", [1])] 0 "x" "boom" = Except.error payloadErr :=
  C2_amended_nonempty_payload_raises [("x", [1])] 0 "x" "boom"
    (by decide) (by decide)

/-- C3: `attach` is idempotent — for every world whose context is already
attached (it carries a dispatcher registry), a second `attach` call leaves the
entire state unchanged: no additional subscriber connection is created (the
connection count is unchanged) and the existing registry is untouched. -/
theorem C3_attach_idempotent (w : World) (c : Context) (reg : Registry)
    (hc : w.context = some c) (hd : c.dispatcher = some reg) :
    (attach w).1 = w ∧ (attach w).1.connections = w.connections := by
  have h : (attach w).1 = w := by simp [attach, hc, hd]
  exact ⟨h, by rw [h]⟩

/-- C3 witness: a second `attach` on a concrete attached world changes
nothing. -/
theorem C3_witness : (attach sampleAttachedW).1 = sampleAttachedW :=
  (C3_attach_idempotent sampleAttachedW { dispatcher := some sampleReg }
    sampleReg rfl rfl).1

/-- C4: for every delivery of a truthy event with an empty payload, the router
invokes each callback currently in that event's array exactly once per entry,
in array order, each with the owning context as receiver and the event name as
sole argument; and when the registry was built by a sequence of `subscribe`
calls (truthy events), that order is exactly subscription order, oldest
first.  Falsy events cannot be subscribed (the guard in `subscribe`), so no
delivery on them dispatches anything. -/
theorem C4_dispatch_in_subscription_order (cbs : CbMap)
    (ops : List (String × Cb)) (ctxId : Nat) (event : String)
    (he : event ≠ "") (hops : ∀ p ∈ ops, p.1 ≠ "") :
    handleMessage cbs ctxId event "" =
      Except.ok (((lookupCbs cbs event).getD []).map fun c =>
        { cb := c, receiver := ctxId, arg := event }) ∧
    handleMessage (runSubscribes ops []) ctxId event "" =
      Except.ok ((ops.filter (fun p => p.1 == event)).map fun p =>
        { cb := p.2, receiver := ctxId, arg := event }) := by
  constructor
  · simp [handleMessage, he]
  · have hr := runSubscribes_lookup ops [] event hops
    simp only [lookupCbs, Option.getD_none] at hr
    simp [handleMessage, he, hr, List.map_map, Function.comp]

/-- C4 witness: three subscriptions, two on `"a"`; delivering `"a"` invokes
callbacks 1 then 2 (subscription order), receiver 7, argument `"a"`. -/
theorem C4_witness :
    handleMessage (runSubscribes [("a", 1), ("b", 3), ("a", 2)] []) 7 "a" "" =
      Except.ok [{ cb := 1, receiver := 7, arg := "a" },
                 { cb := 2, receiver := 7, arg := "a" }] := by
  have h := (C4_dispatch_in_subscription_order
    (runSubscribes [("a", 1), ("b", 3), ("a", 2)] [])
    [("a", 1), ("b", 3), ("a", 2)] 7 "a" (by decide) (by decide)).2
  exact h.trans rfl

/-- C5 counterexample: with a falsy event (`""`), `unsubscribe` takes the
`if (!event || !callback)` guard and issues NO broker unsubscribe request,
although "the event had no list" — refuting the claim as universally stated
over every event. -/
theorem C5_counterexample_falsy_event_no_request :
    unsubscribe [] "" (some 0) = ([], []) := rfl

/-- C5 (amended): for every truthy event and present callback,
`unsubscribe(event, callback)` removes every entry of the event's array equal
to the callback (a filter, not just the first occurrence), touches no other
event, and issues a broker unsubscribe request for the event exactly when the
resulting array is empty or the event had no array; with a falsy event or a
missing callback it is a guard no-op issuing no request. -/
theorem C5_unsubscribe_amended (cbs : CbMap) (event : String) (cb : Cb)
    (he : event ≠ "") :
    lookupCbs (unsubscribe cbs event (some cb)).1 event =
      (lookupCbs cbs event).map (fun l => l.filter (fun x => x != cb)) ∧
    (∀ e, e ≠ event →
      lookupCbs (unsubscribe cbs event (some cb)).1 e = lookupCbs cbs e) ∧
    ((unsubscribe cbs event (some cb)).2 = [Request.unsubscribeR event] ∨
      (unsubscribe cbs event (some cb)).2 = []) ∧
    ((unsubscribe cbs event (some cb)).2 = [Request.unsubscribeR event] ↔
      (lookupCbs (unsubscribe cbs event (some cb)).1 event).getD [] = []) ∧
    unsubscribe cbs "" (some cb) = (cbs, []) ∧
    unsubscribe cbs event none = (cbs, []) := by
  have hnoop1 : unsubscribe cbs "" (some cb) = (cbs, []) := by simp [unsubscribe]
  have hnoop2 : unsubscribe cbs event none = (cbs, []) := by simp [unsubscribe, he]
  cases hl : lookupCbs cbs event with
  | none =>
    have hu : unsubscribe cbs event (some cb) = (cbs, [Request.unsubscribeR event]) := by
      simp [unsubscribe, he, hl]
    refine ⟨?_, ?_, ?_, ?_, hnoop1, hnoop2⟩
    · rw [hu]; simp [hl]
    · intro e _; rw [hu]
    · rw [hu]; left; rfl
    · rw [hu]; simp [hl]
  | some l =>
    by_cases hrem : removeAllCb l cb = []
    · have hu : unsubscribe cbs event (some cb) =
          (setCbs cbs event (removeAllCb l cb), [Request.unsubscribeR event]) := by
        simp [unsubscribe, he, hl, hrem]
      refine ⟨?_, ?_, ?_, ?_, hnoop1, hnoop2⟩
      · rw [hu]
        rw [lookupCbs_setCbs_self cbs event l _ hl, removeAllCb_eq_filter]
        rfl
      · intro e hne
        rw [hu]
        exact lookupCbs_setCbs_other cbs event e _ hne
      · rw [hu]; left; rfl
      · rw [hu]
        simp [lookupCbs_setCbs_self cbs event l _ hl, hrem]
    · have hu : unsubscribe cbs event (some cb) =
          (setCbs cbs event (removeAllCb l cb), []) := by
        simp [unsubscribe, he, hl, hrem]
      refine ⟨?_, ?_, ?_, ?_, hnoop1, hnoop2⟩
      · rw [hu]
        rw [lookupCbs_setCbs_self cbs event l _ hl, removeAllCb_eq_filter]
        rfl
      · intro e hne
        rw [hu]
        exact lookupCbs_setCbs_other cbs event e _ hne
      · rw [hu]; right; rfl
      · rw [hu]
        simp [lookupCbs_setCbs_self cbs event l _ hl, hrem]

/-- C5 witness: unsubscribing callback 1 from `[1, 2, 1]` removes both
occurrences, leaving `[2]`. -/
theorem C5_witness :
    lookupCbs (unsubscribe [("a", [1, 2, 1])] "a" (some 1)).1 "a" = some [2] := by
  have h := C5_unsubscribe_amended [("a", [1, 2, 1])] "a" 1 (by decide)
  exact h.1.trans (by decide)

/-- C6: for every truthy event and present callback, `subscribe` appends the
callback at the end of the event's array without deduplication, leaves other
events untouched, and always issues exactly one broker subscribe request, even
when the event is already subscribed. -/
theorem C6_subscribe_appends_no_dedup (cbs : CbMap) (event : String) (cb : Cb)
    (he : event ≠ "") :
    (lookupCbs (subscribe cbs event (some cb)).1 event).getD [] =
      (lookupCbs cbs event).getD [] ++ [cb] ∧
    (∀ e, e ≠ event →
      lookupCbs (subscribe cbs event (some cb)).1 e = lookupCbs cbs e) ∧
    (subscribe cbs event (some cb)).2 = [Request.subscribeR event] :=
  ⟨by simp [subscribe_lookup_self cbs event cb he],
   fun e hne => subscribe_lookup_other cbs event cb e he hne,
   subscribe_requests cbs event cb he⟩

/-- C6 witness: subscribing callback 5 a second time to `"a"` yields the array
`[5, 5]` (duplicate kept) and still issues the broker subscribe request. -/
theorem C6_witness :
    (lookupCbs (subscribe [("a", [5])] "a" (some 5)).1 "a").getD [] = [5, 5] ∧
    (subscribe [("a", [5])] "a" (some 5)).2 = [Request.subscribeR "a"] := by
  have h := C6_subscribe_appends_no_dedup [("a", [5])] "a" 5 (by decide)
  exact ⟨h.1.trans (by decide), h.2.2⟩

/-- C7: `publish(event)` issues no broker request for a falsy event, and for a
truthy event sends exactly one publish of the event as channel name with the
empty-string payload on the shared publisher connection. -/
theorem C7_publish_empty_payload (event : String) :
    (event = "" → publish event = []) ∧
    (event ≠ "" → publish event = [Request.publishR event ""]) :=
  ⟨fun h => by simp [publish, h], fun h => by simp [publish, h]⟩

/-- C7 witness: concrete falsy and truthy events. -/
theorem C7_witness :
    publish "" = [] ∧ publish "x" = [Request.publishR "x" ""] :=
  ⟨(C7_publish_empty_payload "").1 rfl,
   (C7_publish_empty_payload "x").2 (by decide)⟩

/-- C8: `detach` is a no-op for a nullish or unattached context; for an
attached context it terminates the dedicated subscriber connection
(`quit` called), clears the connection's back-pointer and the context's
dispatcher state, and afterwards `attached` returns `false` (under either
debug setting). -/
theorem C8_detach_clears_crossrefs (w : World) :
    (w.context = none → detach w = (w, none)) ∧
    (∀ c, w.context = some c → c.dispatcher = none → detach w = (w, none)) ∧
    (∀ c reg, w.context = some c → c.dispatcher = some reg →
      detach w = ({ w with context := some { dispatcher := none } },
        some { quitCalled := true, backRef := false }) ∧
      (∀ d, attached d (detach w).1.context = Except.ok false)) := by
  refine ⟨fun h => by simp [detach, h], fun c hc hd => by simp [detach, hc, hd], ?_⟩
  intro c reg hc hd
  have hu : detach w = ({ w with context := some { dispatcher := none } },
      some { quitCalled := true, backRef := false }) := by
    simp [detach, hc, hd]
  refine ⟨hu, fun d => ?_⟩
  rw [hu]
  cases d <;> rfl

/-- C8 witness: detaching the concrete attached world quits the client, clears
the back-pointer, nulls the dispatcher state, and `attached` then reports
false. -/
theorem C8_witness :
    detach sampleAttachedW =
      ({ connections := 1, context := some { dispatcher := none } },
        some { quitCalled := true, backRef := false }) ∧
    attached true (detach sampleAttachedW).1.context = Except.ok false := by
  have h := (C8_detach_clears_crossrefs sampleAttachedW).2.2
    { dispatcher := some sampleReg } sampleReg rfl rfl
  exact ⟨h.1.trans rfl, h.2 true⟩

/-- C9: the claim says `attach` returns the dispatcher for every non-nullish
context, including the no-op call on an already-attached context.  The code
returns `false` for a nullish context and the dispatcher after a fresh
attachment, but the already-attached branch is a bare `return;` (line 68),
yielding `undefined` — contradicting the claim and the function's own
documentation ("@returns The dispatcher, for fluent calls").  This theorem
evaluates all three branches. -/
theorem C9_attach_return_values :
    (attach { connections := 0, context := none }).2 = AttachResult.retFalse ∧
    (attach sampleAttachedW).2 = AttachResult.retUndefined ∧
    (attach { connections := 0, context := some { dispatcher := none } }).2 =
      AttachResult.retDispatcher :=
  ⟨rfl, rfl, rfl⟩

/-- C10: for every delivery whose event name is falsy, `handleMessage` returns
silently — no callback invoked, no error raised — even when the payload is
non-empty, because the `if (!event)` check precedes payload validation. -/
theorem C10_falsy_event_returns_silently (cbs : CbMap) (ctxId : Nat)
    (message : String) :
    handleMessage cbs ctxId "" message = Except.ok [] := rfl

end SkelenodeDispatcher
